import Mathlib

/-!
Verification development for the twelvelabs-mcp repository
(src/twelvelabs_mcp/server.py and src/twelvelabs_mcp/utils.py).

The Python code is shallowly embedded as executable Lean definitions:

* dictionaries carrying clip records are modelled by the structures
  `Clip` (fields "start", "end" as `Option ℚ`, plus an identifying
  payload) and `Item` (a top-level element of `search_result["data"]`,
  which duck-typing may treat as a group, via the optional "clips"
  field, or as a clip record itself);
* Python floats are modelled by `ℚ` (the timestamps the claims touch
  are small exact values);
* side effects of `download_clips` (directory creation, ffmpeg
  invocations) are reified as an ordered `List Effect` trace;
* the external transcoder is an oracle: `ok i` tells whether the i-th
  subprocess invocation exits with code 0, and in the utils model an
  `Option Nat` exit code where `none` stands for an exception raised
  while spawning or waiting (caught by the broad handler);
* an uncaught Python exception at the tool boundary is the
  `ToolResult.raised` constructor, a structured `{status:"error"}`
  payload is `ToolResult.errorPayload`, and the success report of
  `download_clips` is `ToolResult.successReport`.
-/

namespace TwelveLabs

/-- A clip record: the "start" / "end" keys read via `.get` in
server.py lines 179-180 (absent key ⟶ `none`), plus an opaque payload
identifier standing for the rest of the dictionary. -/
structure Clip where
  start? : Option ℚ
  stop? : Option ℚ
  payload : Nat
deriving DecidableEq, Repr

/-- One element of `search_result["data"]` (server.py line 155).  The
element is a dictionary that may carry a "clips" key (`clipsField`;
`some l` = key present with list `l`, where `l = []` also covers a
falsy value, `none` = key absent) and that can itself be read as a
clip record (`self`), which is what the flat branch does. -/
structure Item where
  clipsField : Option (List Clip)
  self : Clip
deriving DecidableEq, Repr

/-- The grouped-mode accumulation loop of server.py lines 164-168:
for each group in order, if `group.get("clips")` is truthy, extend the
accumulator with `group["clips"][:num_clips]` and stop as soon as the
accumulator has reached `num_clips` elements. -/
def groupLoop (n : Nat) : List Item → List Clip → List Clip
  | [], acc => acc
  | g :: rest, acc =>
    match g.clipsField with
    | some cs =>
      if cs.isEmpty then groupLoop n rest acc
      else
        let acc' := acc ++ cs.take n
        if n ≤ acc'.length then acc' else groupLoop n rest acc'
    | none => groupLoop n rest acc

/-- The clip selection of server.py lines 158-175: duck-typed shape
detection on the first element ("clips" key present ⟶ grouped mode,
otherwise flat mode takes `clips_data[:num_clips]`), followed by the
final truncation `processed_clips[:num_clips]`. -/
def selectClips (data : List Item) (n : Nat) : List Clip :=
  let processed :=
    match data with
    | [] => []
    | first :: _ =>
      if first.clipsField.isSome then groupLoop n data []
      else (data.map Item.self).take n
  processed.take n

/-- The logical clip content of a `data` list, in original order: in
grouped mode the concatenation of every group's "clips" list, in flat
mode the elements themselves read as clip records. -/
def flattenData (data : List Item) : List Clip :=
  match data with
  | [] => []
  | first :: _ =>
    if first.clipsField.isSome then
      (data.map (fun it => it.clipsField.getD [])).flatten
    else data.map Item.self

/-- A flat `data` list carrying exactly the clip records `cs`
(no element has a "clips" key). -/
def flatItems (cs : List Clip) : List Item :=
  cs.map (fun c => { clipsField := none, self := c })

/-- A grouped `data` list: one element per group, each with a "clips"
key; a group element has no "start"/"end" keys of its own. -/
def groupItems (gs : List (List Clip)) : List Item :=
  gs.map (fun cs => { clipsField := some cs, self := ⟨none, none, 0⟩ })

/-- The "hls" sub-dictionary of a video record. -/
structure Hls where
  video_url : Option String
deriving DecidableEq, Repr

/-- The `video_info` dictionary as far as `download_clips` reads it:
only the optional "hls" field with its optional "video_url". -/
structure VideoInfo where
  hls : Option Hls
deriving DecidableEq, Repr

/-- The manifest-URL lookup of server.py lines 149-152:
`video_info.get("hls")` must be truthy and
`video_info["hls"].get("video_url")` must be truthy (a missing key,
`None`, or an empty string are all falsy). -/
def manifestUrl (vi : VideoInfo) : Option String :=
  match vi.hls with
  | none => none
  | some h =>
    match h.video_url with
    | none => none
    | some u => if u = "" then none else some u

/-- A filesystem / subprocess effect performed by `download_clips`,
in program order: the recursive `mkdir` of server.py line 146 and one
ffmpeg subprocess invocation per attempted clip (lines 191-205). -/
inductive Effect where
  | mkdirEffect (dir : String)
  | ffmpeg (start stop : ℚ) (url : String) (out : String)
deriving DecidableEq, Repr

/-- One element of the "clips" list in the success report
(server.py lines 207-215). -/
structure OutcomeEntry where
  index : Nat
  start : ℚ
  stop : ℚ
  path : String
  clip_data : Clip
deriving DecidableEq, Repr

/-- What a tool invocation delivers to the host framework: an uncaught
Python exception (`raised`), a `{status:"error", message}` payload
(`errorPayload`), an implicit `None` return after logging
(`omission`, the `retrieve_video` failure path), a video or search
payload, or the `{status:"success", ...}` report of `download_clips`
(`successReport requested downloaded clips`). -/
inductive ToolResult where
  | raised (msg : String)
  | errorPayload (msg : String)
  | omission
  | videoPayload (v : VideoInfo)
  | searchPayload (data : List Item)
  | successReport (requested downloaded : Nat) (clips : List OutcomeEntry)
deriving DecidableEq, Repr

/-- The output filename of server.py lines 186-187:
`host_dir / f"clip_{clip_id}_{i}.mp4"`, with the random 8-character
uuid component supplied by the oracle `names`. -/
def clipPath (d : String) (names : Nat → String) (i : Nat) : String :=
  d ++ "/clip_" ++ names i ++ "_" ++ toString i ++ ".mp4"

/-- The download loop of server.py lines 178-219 over the selected
clips, enumerating from index `i`: a clip whose "start" or "end" is
`None` is skipped by `continue`; otherwise ffmpeg is invoked, and on
exit code 0 (`ok i = true`) an outcome entry is appended, while a
nonzero exit raises `CalledProcessError`, which is caught and logged.
Returns the accumulated `downloaded_clips` and the effect trace.
This is the exit-code fragment: every invocation is assumed to reach
an exit code.  The `except` of line 217 is narrow, so a subprocess
failure other than `CalledProcessError` (e.g. a spawn failure)
propagates and aborts the loop; that path is modelled by
`downloadLoopFull`, of which this function is the restriction
(theorem `downloadLoopFull_exited`). -/
def downloadLoop (d url : String) (names : Nat → String) (ok : Nat → Bool) :
    List Clip → Nat → List OutcomeEntry × List Effect
  | [], _ => ([], [])
  | c :: rest, i =>
    match c.start?, c.stop? with
    | some s, some e =>
      let (ds, effs) := downloadLoop d url names ok rest (i + 1)
      if ok i then
        (⟨i, s, e, clipPath d names i, c⟩ :: ds, Effect.ffmpeg s e url (clipPath d names i) :: effs)
      else
        (ds, Effect.ffmpeg s e url (clipPath d names i) :: effs)
    | _, _ => downloadLoop d url names ok rest (i + 1)

/-- The `download_clips` tool of server.py lines 136-226.  `hostDir` is
`os.environ.get("TWELVELABS_MCP_BASE_PATH")` after tilde expansion and
`abspath` resolution (path resolution is abstracted; `none` means the
variable is unset or empty, in which case line 140 raises
`ValueError`).  Then, in program order: the output directory is
created (line 146), the manifest URL is validated (lines 149-152),
clips are selected (lines 155-175) and the download loop runs
(lines 178-219), ending in the success report (lines 221-226).
This is the restriction of `download_clips_toolFull` to well-shaped
inputs (a dictionary-or-absent "hls" value, a list-valued "data"
field) and to runs in which every transcoder invocation reaches an
exit code; the uncaught-exception paths of the source live in the
full model (theorem `download_clips_tool_eq_full`). -/
def download_clips_tool (hostDir : Option String) (numClips : Nat) (data : List Item)
    (vi : VideoInfo) (names : Nat → String) (ok : Nat → Bool) : ToolResult × List Effect :=
  match hostDir with
  | none => (ToolResult.raised "TWELVELABS_MCP_BASE_PATH environment variable is required", [])
  | some d =>
    match manifestUrl vi with
    | none => (ToolResult.errorPayload "No HLS video URL found in video_info", [Effect.mkdirEffect d])
    | some url =>
      let processed := selectClips data numClips
      let entries := (downloadLoop d url names ok processed 0).1
      let effs := (downloadLoop d url names ok processed 0).2
      (ToolResult.successReport numClips entries.length entries, Effect.mkdirEffect d :: effs)

/-- The `retrieve_video` tool of server.py lines 50-58: the API call is
an oracle that either returns a video record or raises; the broad
`except Exception` prints the error and a traceback and falls off the
end of the function, returning Python `None` (an omission). -/
def retrieve_video_tool (api : Except String VideoInfo) : ToolResult :=
  match api with
  | .ok v => ToolResult.videoPayload v
  | .error _ => ToolResult.omission

/-- The `search` tool of server.py lines 78-129: the API call is an
oracle that either returns a search result or raises; the broad
`except Exception` converts the exception to a structured
`{"status": "error", "message": str(e)}` payload. -/
def search_tool (api : Except String (List Item)) : ToolResult :=
  match api with
  | .ok r => ToolResult.searchPayload r
  | .error m => ToolResult.errorPayload m

/-- The fixed pre-input seek offset of utils.py line 120. -/
def offsetSeconds : ℚ := 5

/-- The three derived quantities of the two-stage seek. -/
structure SeekPlan where
  duration : ℚ
  inputSeek : ℚ
  accurateSeek : ℚ
deriving DecidableEq, Repr

/-- The two-stage seek computation of utils.py lines 114-122:
`duration = end_time - start_time`,
`input_seek = max(0, start_time - offset)`,
`accurate_seek = start_time - input_seek`. -/
def seekPlan (start_time end_time : ℚ) : SeekPlan :=
  let duration := end_time - start_time
  let input_seek := max 0 (start_time - offsetSeconds)
  let accurate_seek := start_time - input_seek
  ⟨duration, input_seek, accurate_seek⟩

/-- The `download_clip` helper of utils.py lines 91-199, over an
explicit filesystem state `fs` (the set of existing paths, as a list).
`exit` is the transcoder oracle for the one possible invocation:
`some c` is an exit code `c` from `process.wait()`, `none` an
exception raised inside the `try` block (spawn failure and the like),
caught by the broad handler of lines 197-199.  On exit code 0 the
transcoder has written the destination file, so it is added to `fs`.
Returns the boolean result, the new filesystem, and how many
transcoder invocations were performed (0 or 1). -/
def download_clip_m (out : String) (exit : Option Nat) (fs : List String) :
    Bool × List String × Nat :=
  if out ∈ fs then (true, fs, 0)
  else
    match exit with
    | none => (false, fs, 1)
    | some c => if c = 0 then (true, out :: fs, 1) else (false, fs, 1)

/-- Python `enumerate` starting at `i`. -/
def enumFrom (i : Nat) : List Clip → List (Nat × Clip)
  | [] => []
  | c :: rest => (i, c) :: enumFrom (i + 1) rest

/-- A clip record carries both timestamps (is not skipped by the
`continue` of server.py line 183). -/
def wfClip (c : Clip) : Bool :=
  c.start?.isSome && c.stop?.isSome

/-- The outcome entry built for the clip at enumeration index `i`
(server.py lines 207-215); the `getD 0` defaults are never exercised
on well-formed clips. -/
def mkEntry (d : String) (names : Nat → String) (i : Nat) (c : Clip) : OutcomeEntry :=
  { index := i, start := c.start?.getD 0, stop := c.stop?.getD 0,
    path := clipPath d names i, clip_data := c }

/-- Declarative description of the download loop's output: among the
enumerated selected clips, exactly those that are well-formed and
whose transcoder invocation exits 0 produce an entry, in order. -/
def successEntries (d : String) (names : Nat → String) (ok : Nat → Bool)
    (cs : List Clip) (i0 : Nat) : List OutcomeEntry :=
  ((enumFrom i0 cs).filter (fun p => wfClip p.2 && ok p.1)).map
    (fun p => mkEntry d names p.1 p.2)

/-- The value under the "hls" key of `video_info`, as the untyped
dictionary access of server.py line 149 can encounter it: `absent`
covers a missing key or a falsy value (`None`, `{}`), which fails the
first truthiness check; `nonDict` is a truthy value that is not a
dictionary, on which `video_info["hls"].get("video_url")` raises
`AttributeError`; `dict u` is a dictionary whose "video_url" value is
`u`. -/
inductive HlsField where
  | absent
  | nonDict (tag : Nat)
  | dict (video_url : Option String)
deriving DecidableEq, Repr

/-- The value under the "data" key of `search_result`: `noneData` is
an explicit `None` (falsy, so shape detection is skipped, and the
slice `clips_data[:num_clips]` at server.py line 171 then raises
`TypeError`); `listData` is a list of items (a missing key defaults
to `[]`, i.e. `listData []`). -/
inductive DataField where
  | noneData
  | listData (items : List Item)
deriving DecidableEq, Repr

/-- Outcome of one `subprocess.run` call (server.py line 205):
`exited c` means a process ran and exited with code `c` (a nonzero
`c` raises `CalledProcessError`, which the `except` of line 217
catches); `spawnError msg` is any other exception — e.g.
`FileNotFoundError` when the ffmpeg binary is missing — which the
narrow `except subprocess.CalledProcessError` does NOT catch, so it
propagates out of the loop and out of the tool. -/
inductive RunOutcome where
  | exited (code : Nat)
  | spawnError (msg : String)
deriving DecidableEq, Repr

/-- Result of the download loop in the full model: either an uncaught
exception aborted it (with the effects performed up to that point) or
it ran to completion. -/
inductive LoopResult where
  | raised (msg : String) (effs : List Effect)
  | completed (entries : List OutcomeEntry) (effs : List Effect)
deriving DecidableEq, Repr

/-- The download loop of server.py lines 178-219 in the full model:
like `downloadLoop`, but each invocation outcome is a `RunOutcome`.
A nonzero exit raises `CalledProcessError`, caught at line 217 (clip
skipped, loop continues); a `spawnError` is not caught, so the loop
aborts immediately, before any subprocess ran for that clip. -/
def downloadLoopFull (d url : String) (names : Nat → String) (run : Nat → RunOutcome) :
    List Clip → Nat → LoopResult
  | [], _ => .completed [] []
  | c :: rest, i =>
    match c.start?, c.stop? with
    | some s, some e =>
      match run i with
      | .spawnError msg => .raised msg []
      | .exited code =>
        match downloadLoopFull d url names run rest (i + 1) with
        | .raised m effs =>
          .raised m (Effect.ffmpeg s e url (clipPath d names i) :: effs)
        | .completed ds effs =>
          if code = 0 then
            .completed (⟨i, s, e, clipPath d names i, c⟩ :: ds)
              (Effect.ffmpeg s e url (clipPath d names i) :: effs)
          else .completed ds (Effect.ffmpeg s e url (clipPath d names i) :: effs)
    | _, _ => downloadLoopFull d url names run rest (i + 1)

/-- The `download_clips` tool of server.py lines 136-226 in the full
model, covering the uncaught-exception paths that `download_clips_tool`
abstracts away: the `ValueError` raise at line 140 when the
output-directory configuration is missing; the `AttributeError` at
line 149 when the "hls" value is a truthy non-dictionary (raised
after the mkdir of line 146, since the short-circuit `or` evaluates
`video_info["hls"].get("video_url")` once the first truthiness test
passes); the `TypeError` at line 171 when `search_result["data"]` is
`None`; and propagation of non-`CalledProcessError` subprocess
failures out of the loop.  On the remaining paths it behaves exactly
like `download_clips_tool` (theorem `download_clips_tool_eq_full`). -/
def download_clips_toolFull (hostDir : Option String) (numClips : Nat)
    (dataField : DataField) (hls : HlsField) (names : Nat → String)
    (run : Nat → RunOutcome) : ToolResult × List Effect :=
  match hostDir with
  | none => (ToolResult.raised "TWELVELABS_MCP_BASE_PATH environment variable is required", [])
  | some d =>
    match hls with
    | .absent =>
      (ToolResult.errorPayload "No HLS video URL found in video_info", [Effect.mkdirEffect d])
    | .nonDict _ =>
      (ToolResult.raised "AttributeError: object has no attribute get", [Effect.mkdirEffect d])
    | .dict u =>
      match u with
      | none =>
        (ToolResult.errorPayload "No HLS video URL found in video_info", [Effect.mkdirEffect d])
      | some url =>
        if url = "" then
          (ToolResult.errorPayload "No HLS video URL found in video_info", [Effect.mkdirEffect d])
        else
          match dataField with
          | .noneData =>
            (ToolResult.raised "TypeError: NoneType object is not subscriptable",
              [Effect.mkdirEffect d])
          | .listData data =>
            match downloadLoopFull d url names run (selectClips data numClips) 0 with
            | .raised m effs => (ToolResult.raised m, Effect.mkdirEffect d :: effs)
            | .completed entries effs =>
              (ToolResult.successReport numClips entries.length entries,
                Effect.mkdirEffect d :: effs)

/-- Reading a typed `VideoInfo` as an "hls" field value: a typed
video record is always either absent or a dictionary. -/
def hlsOfVideoInfo (vi : VideoInfo) : HlsField :=
  match vi.hls with
  | none => .absent
  | some h => .dict h.video_url

/-- The first `n` elements of the grouped accumulation coincide with
the first `n` elements of the concatenated group contents: the
per-group `[:num_clips]` slices, the early break, and the final
truncation compose to a plain prefix of the flattened input. -/
theorem groupLoop_take_eq (n : Nat) :
    ∀ (gs : List Item) (acc : List Clip), acc.length ≤ n →
      (groupLoop n gs acc).take n =
        (acc ++ (gs.map (fun it => it.clipsField.getD [])).flatten).take n := by
  intro gs
  induction gs with
  | nil => intro acc _; simp [groupLoop]
  | cons g rest ih =>
    intro acc hacc
    cases hg : g.clipsField with
    | none =>
      simpa [groupLoop, hg] using ih acc hacc
    | some cs =>
      by_cases he : cs.isEmpty
      · have hcs : cs = [] := List.isEmpty_iff.mp he
        subst hcs
        simpa [groupLoop, hg] using ih acc hacc
      · simp only [groupLoop, hg, he, Bool.false_eq_true, if_false,
          List.map_cons, List.flatten_cons, Option.getD_some]
        by_cases hbr : n ≤ (acc ++ cs.take n).length
        · rw [if_pos hbr]
          rw [List.take_append_eq_append_take, List.take_append_eq_append_take,
            List.take_take]
          have hlen : n ≤ acc.length + min n cs.length := by
            simpa [List.length_take] using hbr
          have h1 : min (n - acc.length) n = n - acc.length := by omega
          rw [h1, List.take_append_eq_append_take]
          have h2 : n - acc.length - cs.length = 0 := by omega
          rw [h2]
          simp
        · rw [if_neg hbr]
          have hlt : acc.length + min n cs.length < n := by
            have := Nat.lt_of_not_le hbr
            simpa [List.length_take] using this
          have hk : cs.length < n := by omega
          have hcs : cs.take n = cs := List.take_of_length_le (Nat.le_of_lt hk)
          have hle : (acc ++ cs.take n).length ≤ n := by
            simp [List.length_take]; omega
          rw [ih _ hle, hcs, List.append_assoc]

/-- The selection of server.py lines 158-175 is exactly the first
`num_clips` elements of the flattened logical clip content. -/
theorem selectClips_eq_take_flatten (data : List Item) (n : Nat) :
    selectClips data n = (flattenData data).take n := by
  cases data with
  | nil => simp [selectClips, flattenData]
  | cons first rest =>
    by_cases h : first.clipsField.isSome
    · simp only [selectClips, flattenData, h, if_pos]
      simpa using groupLoop_take_eq n (first :: rest) [] (Nat.zero_le n)
    · simp [selectClips, flattenData, h, List.take_take]

/-- The flattened content of a grouped `data` list is the
concatenation of the groups. -/
theorem flattenData_groupItems (gs : List (List Clip)) :
    flattenData (groupItems gs) = gs.flatten := by
  cases gs with
  | nil => simp [flattenData, groupItems]
  | cons cs rest =>
    simp [flattenData, groupItems, List.map_map, Function.comp_def]

/-- The flattened content of a flat `data` list is the list itself. -/
theorem flattenData_flatItems (cs : List Clip) :
    flattenData (flatItems cs) = cs := by
  cases cs with
  | nil => simp [flattenData, flatItems]
  | cons c rest => simp [flattenData, flatItems, List.map_map, Function.comp_def]

/-- The imperative download loop computes exactly the declarative
`successEntries`: one entry per enumerated clip that carries both
timestamps and whose transcoder invocation exits 0. -/
theorem downloadLoop_fst (d url : String) (names : Nat → String) (ok : Nat → Bool) :
    ∀ (cs : List Clip) (i : Nat),
      (downloadLoop d url names ok cs i).1 = successEntries d names ok cs i := by
  intro cs
  induction cs with
  | nil => intro i; simp [downloadLoop, successEntries, enumFrom]
  | cons c rest ih =>
    intro i
    cases hs : c.start? with
    | none =>
      simp [downloadLoop, successEntries, enumFrom, wfClip, hs, ih i.succ,
        successEntries]
    | some s =>
      cases he : c.stop? with
      | none =>
        simp [downloadLoop, successEntries, enumFrom, wfClip, hs, he, ih i.succ]
      | some e =>
        by_cases hok : ok i
        · simp [downloadLoop, successEntries, enumFrom, wfClip, mkEntry,
            hs, he, hok, ih (i + 1)]
        · simp [downloadLoop, successEntries, enumFrom, wfClip, hs, he, hok,
            ih (i + 1)]

/-- Every declarative entry is traceable: its index locates its source
clip inside the selected list, that clip is well-formed, and its
transcoder invocation exited 0. -/
theorem successEntries_mem (d : String) (names : Nat → String) (ok : Nat → Bool) :
    ∀ (cs : List Clip) (i0 : Nat) (en : OutcomeEntry),
      en ∈ successEntries d names ok cs i0 →
      i0 ≤ en.index ∧ cs[en.index - i0]? = some en.clip_data ∧
        ok en.index = true ∧ wfClip en.clip_data = true := by
  intro cs
  induction cs with
  | nil => intro i0 en h; simp [successEntries, enumFrom] at h
  | cons c rest ih =>
    intro i0 en h
    simp only [successEntries, enumFrom, List.filter_cons] at h
    by_cases hc : wfClip c && ok i0
    · rw [if_pos hc] at h
      simp only [List.map_cons, List.mem_cons] at h
      cases h with
      | inl h =>
        subst h
        refine ⟨Nat.le_refl _, ?_, ?_, ?_⟩
        · simp [mkEntry]
        · simpa [mkEntry] using (Bool.and_elim_right hc)
        · simpa [mkEntry] using (Bool.and_elim_left hc)
      | inr h =>
        obtain ⟨h1, h2, h3, h4⟩ := ih (i0 + 1) en h
        refine ⟨Nat.le_of_succ_le h1, ?_, h3, h4⟩
        have hidx : en.index - i0 = (en.index - (i0 + 1)) + 1 := by omega
        rw [hidx, List.getElem?_cons_succ]
        exact h2
    · rw [if_neg hc] at h
      obtain ⟨h1, h2, h3, h4⟩ := ih (i0 + 1) en h
      refine ⟨Nat.le_of_succ_le h1, ?_, h3, h4⟩
      have hidx : en.index - i0 = (en.index - (i0 + 1)) + 1 := by omega
      rw [hidx, List.getElem?_cons_succ]
      exact h2

/-- When every invocation reaches an exit code, the full download
loop never raises and computes exactly what `downloadLoop` computes:
the exit-code model is the restriction of the full model. -/
theorem downloadLoopFull_exited (d url : String) (names : Nat → String)
    (ok : Nat → Bool) :
    ∀ (cs : List Clip) (i : Nat),
      downloadLoopFull d url names (fun j => RunOutcome.exited (if ok j then 0 else 1)) cs i =
        LoopResult.completed (downloadLoop d url names ok cs i).1
          (downloadLoop d url names ok cs i).2 := by
  intro cs
  induction cs with
  | nil => intro i; simp [downloadLoopFull, downloadLoop]
  | cons c rest ih =>
    intro i
    cases hs : c.start? with
    | none => simp [downloadLoopFull, downloadLoop, hs, ih (i + 1)]
    | some s =>
      cases he : c.stop? with
      | none => simp [downloadLoopFull, downloadLoop, hs, he, ih (i + 1)]
      | some e =>
        by_cases hok : ok i <;>
          simp [downloadLoopFull, downloadLoop, hs, he, hok, ih (i + 1)]

/-- On well-shaped inputs (a typed video record, a list-valued "data"
field) and exit-code-only transcoder outcomes, the full model of
`download_clips` coincides with `download_clips_tool`: the collapsed
model is exactly the no-uncaught-exception fragment of the source. -/
theorem download_clips_tool_eq_full (hostDir : Option String) (n : Nat)
    (data : List Item) (vi : VideoInfo) (names : Nat → String) (ok : Nat → Bool) :
    download_clips_toolFull hostDir n (DataField.listData data) (hlsOfVideoInfo vi) names
        (fun i => RunOutcome.exited (if ok i then 0 else 1)) =
      download_clips_tool hostDir n data vi names ok := by
  cases hostDir with
  | none => rfl
  | some d =>
    cases hh : vi.hls with
    | none => simp [download_clips_toolFull, download_clips_tool, hlsOfVideoInfo,
        manifestUrl, hh]
    | some h =>
      cases hu : h.video_url with
      | none => simp [download_clips_toolFull, download_clips_tool, hlsOfVideoInfo,
          manifestUrl, hh, hu]
      | some url =>
        by_cases he : url = ""
        · simp [download_clips_toolFull, download_clips_tool, hlsOfVideoInfo,
            manifestUrl, hh, hu, he]
        · simp [download_clips_toolFull, download_clips_tool, hlsOfVideoInfo,
            manifestUrl, hh, hu, he, downloadLoopFull_exited]

/-- C1: for every search result (flat or grouped) and every limit
`L ≥ 0`, the clip selection performed by `download_clips` yields a
sequence of at most `L` clip records, and the surviving records keep
the relative order they have in the input's flattened clip content. -/
theorem claim1_select_bounded_and_ordered (data : List Item) (L : Nat) :
    (selectClips data L).length ≤ L ∧
      List.Sublist (selectClips data L) (flattenData data) := by
  rw [selectClips_eq_take_flatten]
  exact ⟨List.length_take_le _ _, List.take_sublist _ _⟩

/-- C8: a grouped search result and a flat search result carrying the
same clip records in the same overall order select identical
sequences, for every limit. -/
theorem claim8_shape_invariance (gs : List (List Clip)) (L : Nat) :
    selectClips (groupItems gs) L = selectClips (flatItems gs.flatten) L := by
  rw [selectClips_eq_take_flatten, selectClips_eq_take_flatten,
    flattenData_groupItems, flattenData_flatItems]

/-- C2 (counterexample): with limit 1 and a flat result whose first
entry lacks a "start" timestamp while the second entry is well-formed,
the run downloads zero clips — the malformed entry consumed the only
slot, so dropping it did NOT free its slot for the later well-formed
entry, contrary to the claim.  Filtering happens in the download loop
(server.py lines 179-183), after truncation to `num_clips`
(lines 171-175). -/
theorem claim2_counterexample :
    (download_clips_tool (some "/out") 1
        (flatItems [⟨none, some 1, 0⟩, ⟨some 0, some 1, 1⟩])
        ⟨some ⟨some "https://example.com/video.m3u8"⟩⟩
        (fun _ => "abcd1234") (fun _ => true)).1 =
      ToolResult.successReport 1 0 [] ∧
    wfClip ⟨some 0, some 1, 1⟩ = true ∧
    (⟨some 0, some 1, 1⟩ : Clip) ∈
      flattenData (flatItems [⟨none, some 1, 0⟩, ⟨some 0, some 1, 1⟩]) := by
  refine ⟨?_, rfl, ?_⟩
  · rfl
  · rw [flattenData_flatItems]; simp

/-- C2 (amended): entries missing a "start" or an "end" timestamp
never appear among the downloaded clips; however, they are selected
before filtering — truncation to the limit happens first, so a
dropped entry does count against the limit and its slot is not reused
by a later well-formed entry.  Every downloaded entry originates from
a well-formed clip of the (already truncated) selection. -/
theorem claim2_amended_filter_after_truncation (d url : String)
    (names : Nat → String) (ok : Nat → Bool) (data : List Item) (L : Nat) :
    ∀ en ∈ (downloadLoop d url names ok (selectClips data L) 0).1,
      wfClip en.clip_data = true ∧ en.clip_data ∈ selectClips data L := by
  intro en hen
  rw [downloadLoop_fst] at hen
  obtain ⟨-, h2, -, h4⟩ := successEntries_mem d names ok (selectClips data L) 0 en hen
  exact ⟨h4, List.getElem?_mem h2⟩

/-- C2 (amended, witness): on a singleton well-formed selection the
downloaded entry is well-formed and drawn from the selection. -/
theorem claim2_amended_witness :
    wfClip (mkEntry "/out" (fun _ => "abcd1234") 0 ⟨some 0, some 1, 7⟩).clip_data = true ∧
      (mkEntry "/out" (fun _ => "abcd1234") 0 ⟨some 0, some 1, 7⟩).clip_data ∈
        selectClips (flatItems [⟨some 0, some 1, 7⟩]) 1 :=
  claim2_amended_filter_after_truncation "/out" "u" (fun _ => "abcd1234")
    (fun _ => true) (flatItems [⟨some 0, some 1, 7⟩]) 1
    (mkEntry "/out" (fun _ => "abcd1234") 0 ⟨some 0, some 1, 7⟩) (by decide)

/-- C3: when the video record has no HLS manifest URL (no "hls" field,
no "video_url" under it, or an empty one), `download_clips` returns
the structured error payload and its effect trace contains no ffmpeg
invocation. -/
theorem claim3_missing_manifest_structured_error (d : String) (L : Nat)
    (data : List Item) (vi : VideoInfo) (names : Nat → String) (ok : Nat → Bool)
    (h : manifestUrl vi = none) :
    (download_clips_tool (some d) L data vi names ok).1 =
        ToolResult.errorPayload "No HLS video URL found in video_info" ∧
      ∀ s e url p,
        Effect.ffmpeg s e url p ∉ (download_clips_tool (some d) L data vi names ok).2 := by
  refine ⟨?_, ?_⟩ <;> simp [download_clips_tool, h]

/-- C3 (witness): concrete run with `video_info = {}`. -/
theorem claim3_witness :
    manifestUrl ⟨none⟩ = none ∧
      ((download_clips_tool (some "/out") 3 [] ⟨none⟩ (fun _ => "abcd1234")
            (fun _ => true)).1 =
          ToolResult.errorPayload "No HLS video URL found in video_info" ∧
        ∀ s e url p,
          Effect.ffmpeg s e url p ∉
            (download_clips_tool (some "/out") 3 [] ⟨none⟩ (fun _ => "abcd1234")
                (fun _ => true)).2) :=
  ⟨rfl, claim3_missing_manifest_structured_error "/out" 3 [] ⟨none⟩
    (fun _ => "abcd1234") (fun _ => true) rfl⟩

/-- C9: the output directory is created before the manifest URL is
validated, so even on the missing-manifest error return the `mkdir`
effect has already been performed — the whole result of the run is
the structured error together with a trace consisting exactly of the
directory creation. -/
theorem claim9_mkdir_precedes_manifest_check (d : String) (L : Nat)
    (data : List Item) (vi : VideoInfo) (names : Nat → String) (ok : Nat → Bool)
    (h : manifestUrl vi = none) :
    download_clips_tool (some d) L data vi names ok =
      (ToolResult.errorPayload "No HLS video URL found in video_info",
        [Effect.mkdirEffect d]) := by
  simp [download_clips_tool, h]

/-- C9 (witness): concrete run with an "hls" field lacking
"video_url". -/
theorem claim9_witness :
    manifestUrl ⟨some ⟨none⟩⟩ = none ∧
      download_clips_tool (some "/out") 2 [] ⟨some ⟨none⟩⟩ (fun _ => "abcd1234")
          (fun _ => false) =
        (ToolResult.errorPayload "No HLS video URL found in video_info",
          [Effect.mkdirEffect "/out"]) :=
  ⟨rfl, claim9_mkdir_precedes_manifest_check "/out" 2 [] ⟨some ⟨none⟩⟩
    (fun _ => "abcd1234") (fun _ => false) rfl⟩

/-- C4 (counterexample): with the output-directory configuration
missing (`TWELVELABS_MCP_BASE_PATH` unset), `download_clips` raises
`ValueError` out of the tool body (server.py lines 138-140, outside
any try block) instead of returning a structured error payload, so an
exception does propagate past the tool boundary. -/
theorem claim4_counterexample :
    (download_clips_tool none 5 [] ⟨some ⟨some "https://example.com/v.m3u8"⟩⟩
        (fun _ => "abcd1234") (fun _ => true)).1 =
      ToolResult.raised "TWELVELABS_MCP_BASE_PATH environment variable is required" :=
  rfl

/-- C4 (amended): `retrieve_video` converts every API failure to a
logged omission and `search` converts every API failure to a
structured error payload, but `download_clips` does let exceptions
propagate uncaught past the tool boundary: it raises `ValueError`
when the output-directory configuration is missing, and even with
that configuration present it raises `AttributeError` when the
video record's "hls" value is a truthy non-dictionary, raises
`TypeError` when the search result's "data" value is `None`, and
propagates any transcoder failure other than `CalledProcessError`
(e.g. a spawn failure when ffmpeg is absent), since the `except` of
server.py line 217 is narrow.  Only on well-shaped inputs where
every transcoder invocation reaches an exit code does
`download_clips` return a structured payload without raising. -/
theorem claim4_amended_raise_paths :
    (∀ (api : Except String VideoInfo) (msg : String),
        retrieve_video_tool api ≠ ToolResult.raised msg) ∧
    (∀ (api : Except String (List Item)) (msg : String),
        search_tool api ≠ ToolResult.raised msg) ∧
    (∀ (L : Nat) (dataField : DataField) (hls : HlsField) (names : Nat → String)
        (run : Nat → RunOutcome),
        (download_clips_toolFull none L dataField hls names run).1 =
          ToolResult.raised "TWELVELABS_MCP_BASE_PATH environment variable is required") ∧
    (∀ (d : String) (L : Nat) (dataField : DataField) (t : Nat)
        (names : Nat → String) (run : Nat → RunOutcome),
        (download_clips_toolFull (some d) L dataField (HlsField.nonDict t) names run).1 =
          ToolResult.raised "AttributeError: object has no attribute get") ∧
    (∀ (d : String) (L : Nat) (names : Nat → String) (run : Nat → RunOutcome),
        (download_clips_toolFull (some d) L DataField.noneData
            (HlsField.dict (some "https://example.com/v.m3u8")) names run).1 =
          ToolResult.raised "TypeError: NoneType object is not subscriptable") ∧
    (∀ (d m : String) (L : Nat) (names : Nat → String),
        (download_clips_toolFull (some d) (L + 1)
            (DataField.listData (flatItems [⟨some 0, some 1, 0⟩]))
            (HlsField.dict (some "https://example.com/v.m3u8")) names
            (fun _ => RunOutcome.spawnError m)).1 = ToolResult.raised m) ∧
    (∀ (d : String) (L : Nat) (data : List Item) (vi : VideoInfo)
        (names : Nat → String) (ok : Nat → Bool) (msg : String),
        (download_clips_toolFull (some d) L (DataField.listData data)
            (hlsOfVideoInfo vi) names
            (fun i => RunOutcome.exited (if ok i then 0 else 1))).1 ≠
          ToolResult.raised msg) := by
  refine ⟨?_, ?_, ?_, ?_, ?_, ?_, ?_⟩
  · intro api msg; cases api <;> simp [retrieve_video_tool]
  · intro api msg; cases api <;> simp [search_tool]
  · intro L dataField hls names run; rfl
  · intro d L dataField t names run; rfl
  · intro d L names run
    simp [download_clips_toolFull]
  · intro d m L names
    simp [download_clips_toolFull, downloadLoopFull, selectClips, flatItems]
  · intro d L data vi names ok msg
    rw [download_clips_tool_eq_full]
    cases h : manifestUrl vi <;> simp [download_clips_tool, h]

/-- C5: whenever the configuration and the manifest URL are present,
`download_clips` returns the `{status:"success"}` report with
`clips_requested` equal to the caller's `num_clips`,
`clips_downloaded` equal to the number of clips whose transcoder
invocation exited 0, and the entry list containing exactly those
clips; each entry's `index` is its original position in the selected
sequence (its source clip sits at that position), so a nonzero exit
for one clip never aborts the run or raises to the caller. -/
theorem claim5_partial_failure_report (d url : String) (L : Nat) (data : List Item)
    (vi : VideoInfo) (names : Nat → String) (ok : Nat → Bool)
    (h : manifestUrl vi = some url) :
    (download_clips_tool (some d) L data vi names ok).1 =
      ToolResult.successReport L
        (successEntries d names ok (selectClips data L) 0).length
        (successEntries d names ok (selectClips data L) 0) ∧
    ∀ en ∈ successEntries d names ok (selectClips data L) 0,
      (selectClips data L)[en.index]? = some en.clip_data ∧
        ok en.index = true ∧ wfClip en.clip_data = true := by
  constructor
  · simp [download_clips_tool, h, downloadLoop_fst]
  · intro en hen
    obtain ⟨-, h2, h3, h4⟩ := successEntries_mem d names ok _ 0 en hen
    exact ⟨by simpa using h2, h3, h4⟩

/-- C5 (witness): a run requesting 5 clips over 5 well-formed clips
whose transcoder fails at invocation indices 1 and 3 reports success
with 3 downloads, and the computed report has exactly 3 entries. -/
theorem claim5_witness :
    manifestUrl ⟨some ⟨some "https://example.com/v.m3u8"⟩⟩ =
        some "https://example.com/v.m3u8" ∧
      ((download_clips_tool (some "/out") 5
            (flatItems [⟨some 0, some 1, 0⟩, ⟨some 1, some 2, 1⟩, ⟨some 2, some 3, 2⟩,
              ⟨some 3, some 4, 3⟩, ⟨some 4, some 5, 4⟩])
            ⟨some ⟨some "https://example.com/v.m3u8"⟩⟩ (fun _ => "abcd1234")
            (fun i => decide (i ≠ 1 ∧ i ≠ 3))).1 =
          ToolResult.successReport 5
            (successEntries "/out" (fun _ => "abcd1234") (fun i => decide (i ≠ 1 ∧ i ≠ 3))
              (selectClips
                (flatItems [⟨some 0, some 1, 0⟩, ⟨some 1, some 2, 1⟩, ⟨some 2, some 3, 2⟩,
                  ⟨some 3, some 4, 3⟩, ⟨some 4, some 5, 4⟩]) 5) 0).length
            (successEntries "/out" (fun _ => "abcd1234") (fun i => decide (i ≠ 1 ∧ i ≠ 3))
              (selectClips
                (flatItems [⟨some 0, some 1, 0⟩, ⟨some 1, some 2, 1⟩, ⟨some 2, some 3, 2⟩,
                  ⟨some 3, some 4, 3⟩, ⟨some 4, some 5, 4⟩]) 5) 0) ∧
        ∀ en ∈ successEntries "/out" (fun _ => "abcd1234") (fun i => decide (i ≠ 1 ∧ i ≠ 3))
            (selectClips
              (flatItems [⟨some 0, some 1, 0⟩, ⟨some 1, some 2, 1⟩, ⟨some 2, some 3, 2⟩,
                ⟨some 3, some 4, 3⟩, ⟨some 4, some 5, 4⟩]) 5) 0,
          (selectClips
              (flatItems [⟨some 0, some 1, 0⟩, ⟨some 1, some 2, 1⟩, ⟨some 2, some 3, 2⟩,
                ⟨some 3, some 4, 3⟩, ⟨some 4, some 5, 4⟩]) 5)[en.index]? =
              some en.clip_data ∧
            (fun i => decide (i ≠ 1 ∧ i ≠ 3)) en.index = true ∧
            wfClip en.clip_data = true) ∧
      (successEntries "/out" (fun _ => "abcd1234") (fun i => decide (i ≠ 1 ∧ i ≠ 3))
          (selectClips
            (flatItems [⟨some 0, some 1, 0⟩, ⟨some 1, some 2, 1⟩, ⟨some 2, some 3, 2⟩,
              ⟨some 3, some 4, 3⟩, ⟨some 4, some 5, 4⟩]) 5) 0).length = 3 :=
  ⟨rfl,
    claim5_partial_failure_report "/out" "https://example.com/v.m3u8" 5
      (flatItems [⟨some 0, some 1, 0⟩, ⟨some 1, some 2, 1⟩, ⟨some 2, some 3, 2⟩,
        ⟨some 3, some 4, 3⟩, ⟨some 4, some 5, 4⟩])
      ⟨some ⟨some "https://example.com/v.m3u8"⟩⟩ (fun _ => "abcd1234")
      (fun i => decide (i ≠ 1 ∧ i ≠ 3)) rfl,
    by decide⟩

/-- C6: the two-stage seek arithmetic of utils.py lines 114-122:
`duration = end - start`, `input_seek = max(0, start - 5)`,
`accurate_seek = start - input_seek`; the two seeks compose exactly
to `start`, the duration is positive when `end > start`, and the two
concrete instances of the spec hold. -/
theorem claim6_two_stage_seek (s e : ℚ) (h : s < e) :
    (seekPlan s e).duration = e - s ∧
    (seekPlan s e).inputSeek = max 0 (s - 5) ∧
    (seekPlan s e).accurateSeek = s - (seekPlan s e).inputSeek ∧
    (seekPlan s e).inputSeek + (seekPlan s e).accurateSeek = s ∧
    0 < (seekPlan s e).duration ∧
    seekPlan 10 15 = ⟨5, 5, 5⟩ ∧
    seekPlan 2 8 = ⟨6, 0, 2⟩ := by
  refine ⟨rfl, rfl, rfl, ?_, ?_, ?_, ?_⟩
  · show max 0 (s - offsetSeconds) + (s - max 0 (s - offsetSeconds)) = s
    ring
  · exact sub_pos.mpr h
  · simp only [seekPlan, offsetSeconds, SeekPlan.mk.injEq]
    norm_num
  · simp only [seekPlan, offsetSeconds, SeekPlan.mk.injEq]
    norm_num

/-- C6 (witness): the instance `start = 10`, `end = 15`. -/
theorem claim6_witness :
    (10 : ℚ) < 15 ∧
      ((seekPlan 10 15).duration = 15 - 10 ∧
        (seekPlan 10 15).inputSeek = max 0 (10 - 5) ∧
        (seekPlan 10 15).accurateSeek = 10 - (seekPlan 10 15).inputSeek ∧
        (seekPlan 10 15).inputSeek + (seekPlan 10 15).accurateSeek = 10 ∧
        0 < (seekPlan 10 15).duration ∧
        seekPlan 10 15 = ⟨5, 5, 5⟩ ∧
        seekPlan 2 8 = ⟨6, 0, 2⟩) :=
  ⟨by norm_num, claim6_two_stage_seek 10 15 (by norm_num)⟩

/-- C7: `download_clip` is idempotent with respect to its output
path: if a first call succeeded (the destination file exists
afterwards, because it pre-existed or because the transcoder exited 0
and wrote it), a second call with the same output path returns
success immediately, performs no transcoder invocation, and the two
calls together invoke the transcoder at most once. -/
theorem claim7_idempotent_by_path (out : String) (e1 e2 : Option Nat)
    (fs : List String) (h : (download_clip_m out e1 fs).1 = true) :
    (download_clip_m out e2 (download_clip_m out e1 fs).2.1).1 = true ∧
    (download_clip_m out e2 (download_clip_m out e1 fs).2.1).2.2 = 0 ∧
    (download_clip_m out e1 fs).2.2 +
      (download_clip_m out e2 (download_clip_m out e1 fs).2.1).2.2 ≤ 1 := by
  by_cases hfs : out ∈ fs
  · simp [download_clip_m, hfs]
  · cases e1 with
    | none => simp [download_clip_m, hfs] at h
    | some c =>
      by_cases hc : c = 0
      · subst hc
        simp [download_clip_m, hfs]
      · simp [download_clip_m, hfs, hc] at h

/-- C7 (witness): a successful first call (exit code 0 on an empty
filesystem) makes the second call (whose oracle would report exit
code 1) skip the transcoder and succeed. -/
theorem claim7_witness :
    (download_clip_m "clip.mp4" (some 0) []).1 = true ∧
      ((download_clip_m "clip.mp4" (some 1)
            (download_clip_m "clip.mp4" (some 0) []).2.1).1 = true ∧
        (download_clip_m "clip.mp4" (some 1)
            (download_clip_m "clip.mp4" (some 0) []).2.1).2.2 = 0 ∧
        (download_clip_m "clip.mp4" (some 0) []).2.2 +
          (download_clip_m "clip.mp4" (some 1)
              (download_clip_m "clip.mp4" (some 0) []).2.1).2.2 ≤ 1) :=
  ⟨by decide, claim7_idempotent_by_path "clip.mp4" (some 0) (some 1) [] (by decide)⟩

/-- C10: `download_clip` is total at its own boundary: for every
filesystem state and transcoder outcome (`none` standing for an
exception raised while spawning or waiting, caught by the broad
handler of utils.py lines 197-199) it returns the boolean
`true` exactly when the destination pre-exists or the exit code is 0,
and `false` in every other case — never an exception. -/
theorem claim10_download_clip_total (out : String) (e : Option Nat)
    (fs : List String) :
    (download_clip_m out e fs).1 = (decide (out ∈ fs) || decide (e = some 0)) := by
  by_cases hfs : out ∈ fs
  · simp [download_clip_m, hfs]
  · cases e with
    | none => simp [download_clip_m, hfs]
    | some c => by_cases hc : c = 0 <;> simp [download_clip_m, hfs, hc]

end TwelveLabs
